import Mathlib

/-!
# DocuMancer — verification of the conversion-pipeline specification

Shallow embedding of the DocuMancer Electron application
(`src/frontend/electron-main.js`, `src/frontend/preload.js`, the renderer in
`src/unnamed/part_002`, and the main-process orchestration `convertFiles` /
`cancelConversion`), together with a model of the Python batch-conversion
pipeline (`backend/converter.py`), which is referenced by the shell but whose
source is not present; that part is modelled from the specification
(§3–§4.5, §6–§7 of the design document).
-/

namespace DocuMancer

/-! ## Preload context bridge (src/frontend/preload.js)

The preload script exposes `api.send`, `api.invoke` and `api.on` to the
renderer, each gated by a fixed channel whitelist. -/

/-- `SEND_CHANNELS` from preload.js: channels allowed for fire-and-forget
sends to the main process. -/
def SEND_CHANNELS : List String :=
  ["convert-files", "select-files", "cancel-conversion", "window-minimize",
   "window-maximize", "window-close", "open-output-folder", "open-file",
   "reveal-file"]

/-- `RECEIVE_CHANNELS` from preload.js: channels the renderer may listen on. -/
def RECEIVE_CHANNELS : List String :=
  ["conversion-started", "conversion-progress", "conversion-complete",
   "conversion-error", "conversion-warning", "conversion-cancelled",
   "file-converted", "files-selected"]

/-- `INVOKE_CHANNELS` from preload.js: channels allowed for async
request-response invokes. -/
def INVOKE_CHANNELS : List String :=
  ["open-file-dialog", "get-app-info", "get-system-theme"]

/-- Result of `api.send`: the channel actually forwarded to
`ipcRenderer.send` (if any) and the boolean return value. -/
structure SendResult where
  forwarded : Option String
  returned : Bool
  deriving DecidableEq, Repr

/-- `api.send(channel)`: forwards to `ipcRenderer.send` and returns `true`
iff the channel is whitelisted; otherwise sends nothing and returns
`false`. -/
def apiSend (channel : String) : SendResult :=
  if channel ∈ SEND_CHANNELS then
    { forwarded := some channel, returned := true }
  else
    { forwarded := none, returned := false }

/-- `api.invoke(channel)`: forwards to `ipcRenderer.invoke` when the channel
is whitelisted, otherwise returns a rejected promise carrying
`Invalid channel: <channel>` without invoking. `Except.ok` carries the
channel that was forwarded. -/
def apiInvoke (channel : String) : Except String String :=
  if channel ∈ INVOKE_CHANNELS then
    Except.ok channel
  else
    Except.error ("Invalid channel: " ++ channel)

/-- Result of `api.on`: which channel (if any) got a listener registered via
`ipcRenderer.on`, and whether the returned unsubscribe function actually
removes a listener (for a blocked channel it is a no-op). -/
structure OnResult where
  registered : Option String
  unsubRemoves : Bool
  deriving DecidableEq, Repr

/-- `api.on(channel, cb)`: registers a wrapped listener and returns a real
unsubscribe function when the channel is whitelisted; otherwise registers
nothing and returns a no-op unsubscribe. -/
def apiOn (channel : String) : OnResult :=
  if channel ∈ RECEIVE_CHANNELS then
    { registered := some channel, unsubRemoves := true }
  else
    { registered := none, unsubRemoves := false }

/-! ## Renderer (src/unnamed/part_002, renderer.js)

`formatFileSize`, the application state and the conversion workflow
handlers. -/

/-- `sizes` array from `formatFileSize`. -/
def sizes : List String := ["B", "KB", "MB", "GB"]

/-- Fuelled floor of the base-1024 logarithm; `log1024Aux fuel n` equals
`Math.floor(Math.log(n) / Math.log(1024))` (exact arithmetic) whenever
`n ≤ fuel`. -/
def log1024Aux : Nat → Nat → Nat
  | 0, _ => 0
  | fuel + 1, n => if n < 1024 then 0 else log1024Aux fuel (n / 1024) + 1

/-- `Math.floor(Math.log(bytes) / Math.log(1024))` in exact integer
arithmetic. -/
def log1024 (n : Nat) : Nat := log1024Aux n n

/-- The numeric part `parseFloat((bytes / Math.pow(k, i)).toFixed(1))` of
`formatFileSize`: the value `bytes / 1024^i` rounded to one decimal place,
with a trailing `.0` dropped (as `parseFloat` does). -/
def sizeNumString (bytes : Nat) : String :=
  let i := log1024 bytes
  let den := 1024 ^ i
  let scaled := (20 * bytes + den) / (2 * den)
  if scaled % 10 = 0 then toString (scaled / 10)
  else toString (scaled / 10) ++ "." ++ toString (scaled % 10)

/-- `formatFileSize` from the renderer: `'0 B'` for zero, otherwise the
rounded value followed by a space and `sizes[i]` (JavaScript yields the
string `undefined` when `i` is out of bounds). -/
def formatFileSize (bytes : Nat) : String :=
  if bytes = 0 then "0 B"
  else sizeNumString bytes ++ " " ++ sizes.getD (log1024 bytes) "undefined"

/-- One entry of `AppState.files` in the renderer. -/
structure FileEntry where
  path : String
  name : String
  status : String
  statusText : String
  deriving DecidableEq, Repr

/-- The renderer `AppState` fields driving the conversion workflow. -/
structure RendererState where
  files : List FileEntry
  convertedFiles : List (String × String)
  isConverting : Bool
  deriving DecidableEq, Repr

/-- Observable effect of `startConversion`: either a status warning with no
IPC call, or a `window.fileOps.convert` dispatch of the queued paths. -/
inductive StartAction where
  | warned (message : String)
  | dispatched (paths : List String)
  deriving DecidableEq, Repr

/-- `startConversion` from the renderer: rejects when no files are queued or
a conversion is already in progress; otherwise marks every file as queued,
sets `isConverting`, clears `convertedFiles` and dispatches the paths over
IPC. -/
def startConversion (st : RendererState) : RendererState × StartAction :=
  if st.files.isEmpty then
    (st, StartAction.warned "No files to convert")
  else if st.isConverting then
    (st, StartAction.warned "Conversion already in progress")
  else
    let queued := st.files.map fun f =>
      { f with status := "pending", statusText := "Queued" }
    ({ files := queued, convertedFiles := [], isConverting := true },
     StartAction.dispatched (st.files.map (·.path)))

/-- The `conversion-cancelled` IPC handler in the renderer: clears
`isConverting` and marks every file still `pending` or `processing` as
`cancelled`; files already in a final state keep their status. -/
def onConversionCancelled (st : RendererState) : RendererState :=
  { st with
    isConverting := false,
    files := st.files.map fun f =>
      if f.status = "pending" ∨ f.status = "processing" then
        { f with status := "cancelled", statusText := "Cancelled" }
      else f }

/-! ## Main process (src/backend/requirements.txt embedded electron-main.js,
and src/frontend/electron-main.js)

Two orchestration variants exist in the repository: the spawn-based
`convertFiles`/`cancelConversion` (emitting `conversion-*` IPC events and
running the Python converter as a child process), and an HTTP-based
`convert-files` IPC handler posting to a local backend. -/

/-- Events the spawn-based `convertFiles` sends to the renderer before any
per-file work happens. -/
inductive MainEvent where
  | conversionError (code : String) (message : String)
  | conversionStarted (total : Nat)
  deriving DecidableEq, Repr

/-- Admission prefix of the spawn-based `convertFiles(filePaths)`: with no
input paths it emits a `conversion-error` with code `NO_FILES` and returns;
with a missing converter script it emits `CONVERTER_NOT_FOUND` and returns;
otherwise it emits `conversion-started` and spawns the converter (the
returned flag records whether the converter process was spawned). -/
def convertFilesStart (filePaths : List String) (scriptExists : Bool) :
    List MainEvent × Bool :=
  if filePaths.isEmpty then
    ([MainEvent.conversionError "NO_FILES" "No files selected for conversion"],
     false)
  else if !scriptExists then
    ([MainEvent.conversionError "CONVERTER_NOT_FOUND" "Converter script not found"],
     false)
  else
    ([MainEvent.conversionStarted filePaths.length], true)

/-- Terminal event the spawn-based `convertFiles` close handler sends: one
`conversion-complete` on exit code 0, otherwise one `conversion-error` with
code `CONVERSION_FAILED`. -/
inductive CloseEvent where
  | conversionComplete (message : String) (files : List String)
  | conversionError (code : String) (message : String)
  deriving DecidableEq, Repr

/-- The `converterProcess.on('close')` handler of the spawn-based
`convertFiles`. -/
def converterCloseHandler (code : Int) (filePaths : List String) : CloseEvent :=
  if code = 0 then
    CloseEvent.conversionComplete
      ("Successfully converted " ++ toString filePaths.length ++ " file(s)")
      filePaths
  else
    CloseEvent.conversionError "CONVERSION_FAILED"
      ("Conversion failed with exit code " ++ toString code)

/-- `cancelConversion` from the main process: when a converter process is
running it is killed, one `conversion-cancelled` event is sent and `true`
is returned; otherwise nothing happens and `false` is returned. The result
records (killed process?, cancelled event sent?, return value). -/
def cancelConversion (processRunning : Bool) : Bool × Bool × Bool :=
  if processRunning then (true, true, true) else (false, false, false)

/-- Reply shape of the HTTP-based `convert-files` IPC handler. -/
structure ConvertReply where
  results : List String
  deriving DecidableEq, Repr

/-- Admission prefix of the HTTP-based `convert-files` handler in
src/frontend/electron-main.js: with no files it returns `{ results: [] }`
(an ordinary reply, not a thrown error); otherwise it proceeds to POST the
file list to the backend. `Except.error` models a thrown error surfaced to
the renderer; `none` in the `ok` payload means the request was forwarded to
the backend. -/
def convertFilesHandler (files : List String) :
    Except String (Option ConvertReply) :=
  if files.isEmpty then Except.ok (some { results := [] })
  else Except.ok none

/-- Whether the `convert-files` handler surfaced a thrown (fatal) error to
its caller. -/
def isErrorReply : Except String (Option ConvertReply) → Bool
  | .error _ => true
  | .ok _ => false

/-- The fetch request the HTTP-based `convert-files` handler issues for a
non-empty file list, as configured in src/frontend/electron-main.js:
`POST /convert` with a 10,000 ms timeout option. -/
structure FetchRequest where
  method : String
  urlPath : String
  bodyFiles : List String
  timeoutMs : Option Nat
  deriving DecidableEq, Repr

/-- The request built by the `convert-files` handler (`timeout: 10_000`). -/
def convertRequest (files : List String) : FetchRequest :=
  { method := "POST", urlPath := "/convert", bodyFiles := files,
    timeoutMs := some 10000 }

/-! ## Conversion pipeline (modelled from the spec)

The Python batch converter (`backend/converter.py`) is invoked by the shell
but its source is not under src/; the pipeline below is modelled from the
specification: data model (§3), component contracts (§4.1–§4.5), entry
point and output schema (§6), error taxonomy (§7). -/

/-- Modelled from the spec: the closed set of detected formats (§4.1),
`backend/converter.py` being absent from src/. -/
inductive Format where
  | pdf | docx | txt | epub | image
  deriving DecidableEq, Repr

/-- JSON name of a format, as in the §6 output schema. -/
def Format.jsonName : Format → String
  | .pdf => "pdf"
  | .docx => "docx"
  | .txt => "txt"
  | .epub => "epub"
  | .image => "image"

/-- Modelled from the spec: the error taxonomy of §7, `backend/converter.py`
being absent from src/. -/
inductive ConvError where
  | unsupportedFormat
  | extractionError (reason : String)
  | ocrFailure
  | writeError
  deriving DecidableEq, Repr

/-- Modelled from the spec: a §6 content block (type, text, optional page
index), `backend/converter.py` being absent from src/. -/
structure Block where
  kind : String
  text : String
  page : Option Nat
  deriving DecidableEq, Repr

/-- Modelled from the spec: `ExtractedContent` (§3) — raw text plus
structural metadata, `backend/converter.py` being absent from src/. -/
structure ExtractedContent where
  rawText : String
  pageCount : Nat
  blocks : List Block
  warnings : List String
  deriving DecidableEq, Repr

/-- Modelled from the spec: `NormalizedDocument` (§3) — cleaned text with
detected language and structure, `backend/converter.py` being absent from
src/. -/
structure NormalizedDocument where
  title : Option String
  language : String
  blocks : List Block
  warnings : List String
  deriving DecidableEq, Repr

/-- Modelled from the spec: `ConvertedDocument` (§3, §6) — the canonical
output record; `generatedAt` is the non-semantic generation-timestamp
metadata field of §4.4, `backend/converter.py` being absent from src/. -/
structure ConvertedDocument where
  sourcePath : String
  format : Format
  title : Option String
  language : String
  blocks : List Block
  warnings : List String
  generatedAt : Nat
  deriving DecidableEq, Repr

/-- Per-file outcome of a `ConversionResult` (§3, §4.5). -/
inductive Outcome where
  | success (outputPath : String)
  | failure (err : ConvError)
  | cancelled
  deriving DecidableEq, Repr

/-- `Outcome.isFailure`. -/
def Outcome.isFailure : Outcome → Bool
  | .failure _ => true
  | _ => false

/-- Modelled from the spec: `ConversionResult` (§3) — per-file outcome,
`backend/converter.py` being absent from src/. -/
structure ConversionResult where
  path : String
  outcome : Outcome
  deriving DecidableEq, Repr

/-- Modelled from the spec: `BatchSummary` (§3) — total, succeeded, failed
and the per-file results, `backend/converter.py` being absent from src/. -/
structure BatchSummary where
  total : Nat
  succeeded : Nat
  failed : Nat
  results : List ConversionResult
  deriving DecidableEq, Repr

/-- Modelled from the spec: the §6 event stream — `started{path}`,
`fileDone{path, outcome}`, terminal `batchDone{summary}` or a Cancelled
event (§4.5), `backend/converter.py` being absent from src/. -/
inductive Event where
  | started (path : String)
  | fileDone (path : String) (outcome : Outcome)
  | batchDone (summary : BatchSummary)
  | cancelledEvt (summary : BatchSummary)
  deriving DecidableEq, Repr

/-- Modelled from the spec: the environment a batch run executes in — the
Detector, the per-format Extractors, the Normalizer (total: it never fails,
§4.3), the output writer, and the generation clock, `backend/converter.py`
being absent from src/. -/
structure PipelineEnv where
  detect : String → Except ConvError Format
  extract : Format → String → Except ConvError ExtractedContent
  normalize : ExtractedContent → NormalizedDocument
  write : ConvertedDocument → Except ConvError String
  now : Nat

/-- Modelled from the spec: the Document Assembler (§4.4) — merges the
normalized document with source path and detected format into the canonical
record; the timestamp goes only into the non-semantic `generatedAt` field,
`backend/converter.py` being absent from src/. -/
def assemble (nd : NormalizedDocument) (src : String) (fmt : Format)
    (timestamp : Nat) : ConvertedDocument :=
  { sourcePath := src, format := fmt, title := nd.title,
    language := nd.language, blocks := nd.blocks, warnings := nd.warnings,
    generatedAt := timestamp }

/-- Minimal JSON string escaping (backslash and double quote). -/
def jsonEscape (s : String) : String :=
  String.join (s.toList.map fun c =>
    if c = '\\' then "\\\\"
    else if c = '"' then "\\\"" else String.singleton c)

/-- Serialize one §6 content block with fixed key order
`type`, `text`, `page`. -/
def Block.serialize (b : Block) : String :=
  "\x7b\"type\":\"" ++ jsonEscape b.kind ++ "\",\"text\":\"" ++
    jsonEscape b.text ++ "\",\"page\":" ++
    (match b.page with
     | some p => toString p
     | none => "null") ++ "\x7d"

/-- Serialize a JSON string list. -/
def serializeStrings (ws : List String) : String :=
  "[" ++ String.intercalate "," (ws.map fun w => "\"" ++ jsonEscape w ++ "\"")
    ++ "]"

/-- Modelled from the spec: the content part of the §6 output JSON —
fixed key order `sourcePath`, `format`, `title`, `language`, `blocks`,
`warnings`; the `generatedAt` metadata field is excluded from
content-equality comparisons (§4.4), `backend/converter.py` being absent
from src/. -/
def serializeContent (d : ConvertedDocument) : String :=
  "\x7b\"sourcePath\":\"" ++ jsonEscape d.sourcePath ++
    "\",\"format\":\"" ++ d.format.jsonName ++
    "\",\"title\":" ++
    (match d.title with
     | some t => "\"" ++ jsonEscape t ++ "\""
     | none => "null") ++
    ",\"language\":\"" ++ jsonEscape d.language ++
    "\",\"blocks\":[" ++ String.intercalate "," (d.blocks.map Block.serialize)
    ++ "],\"warnings\":" ++ serializeStrings d.warnings ++ "\x7d"

/-- Modelled from the spec: one file through the pipeline — detect →
extract → normalize → assemble → write; any stage failure is caught and
mapped to a `ConversionResult` failure (§4.5, §7), `backend/converter.py`
being absent from src/. -/
def processFile (env : PipelineEnv) (path : String) : ConversionResult :=
  match env.detect path with
  | .error e => { path := path, outcome := .failure e }
  | .ok fmt =>
    match env.extract fmt path with
    | .error e => { path := path, outcome := .failure e }
    | .ok content =>
      match env.write (assemble (env.normalize content) path fmt env.now) with
      | .error e => { path := path, outcome := .failure e }
      | .ok outPath => { path := path, outcome := .success outPath }

/-- Modelled from the spec: the per-file JSON production of the pipeline
(for the determinism/idempotence property of §4.4/§8): detect → extract →
normalize → assemble → serialize; returns the content JSON together with
the timestamp metadata, `backend/converter.py` being absent from src/. -/
def convertFileJSON (env : PipelineEnv) (path : String) (timestamp : Nat) :
    Except ConvError (String × Nat) :=
  match env.detect path with
  | .error e => .error e
  | .ok fmt =>
    match env.extract fmt path with
    | .error e => .error e
    | .ok content =>
      .ok (serializeContent (assemble (env.normalize content) path fmt timestamp),
           timestamp)

/-- Build the `BatchSummary` from the per-file results (§3). -/
def mkSummary (results : List ConversionResult) : BatchSummary :=
  { total := results.length,
    succeeded := (results.filter fun r =>
      match r.outcome with | .success _ => true | _ => false).length,
    failed := (results.filter fun r => r.outcome.isFailure).length,
    results := results }

/-- Modelled from the spec: the Batch Runner loop (§4.5) — strictly
sequential, in input order; `cancel k` states whether a cancellation
request has been observed at the file boundary before starting the file
with absolute index `k`; once cancellation is observed no further file is
started and every remaining file gets a `cancelled` result,
`backend/converter.py` being absent from src/. -/
def runBatchAux (env : PipelineEnv) (cancel : Nat → Bool) :
    Nat → List String → List Event × List ConversionResult
  | _, [] => ([], [])
  | k, p :: rest =>
    if cancel k then
      ([], (p :: rest).map fun q => { path := q, outcome := .cancelled })
    else
      let r := processFile env p
      let (evs, res) := runBatchAux env cancel (k + 1) rest
      (Event.started p :: Event.fileDone p r.outcome :: evs, r :: res)

/-- Modelled from the spec: `convert(paths)` (§6) — runs the batch loop and
emits one terminal event: `batchDone{summary}` on completion, or a
Cancelled event carrying the summary when cancellation was observed before
completion (§4.5), `backend/converter.py` being absent from src/. -/
def runBatch (env : PipelineEnv) (cancel : Nat → Bool) (paths : List String) :
    List Event × BatchSummary :=
  let out := runBatchAux env cancel 0 paths
  let summary := mkSummary out.2
  if (List.range paths.length).any cancel then
    (out.1 ++ [Event.cancelledEvt summary], summary)
  else
    (out.1 ++ [Event.batchDone summary], summary)

/-- The trivial cancellation signal: never cancelled. -/
def noCancel : Nat → Bool := fun _ => false

/-- The cancellation signal first observed at the boundary before file
index `k₀`. -/
def cancelAt (k₀ : Nat) : Nat → Bool := fun j => k₀ ≤ j

/-- The pair of events the Batch Runner emits for one file: its start event
immediately followed by its completion event (§4.5). -/
def fileEvents (env : PipelineEnv) (p : String) : List Event :=
  [Event.started p, Event.fileDone p (processFile env p).outcome]

/-! ## Helper lemmas -/

/-- `processFile` reports the result under the path it was given. -/
lemma processFile_path (env : PipelineEnv) (p : String) :
    (processFile env p).path = p := by
  unfold processFile
  split
  · rfl
  · split
    · rfl
    · split <;> rfl

/-- `processFile` never yields a `cancelled` outcome: each processed file
ends in success or failure. -/
lemma processFile_not_cancelled (env : PipelineEnv) (p : String) :
    (processFile env p).outcome ≠ Outcome.cancelled := by
  unfold processFile
  split
  · simp
  · split
    · simp
    · split <;> simp

/-- The source paths of the mapped per-file results are the input paths. -/
lemma results_paths (env : PipelineEnv) :
    ∀ paths : List String,
      (paths.map (processFile env)).map ConversionResult.path = paths := by
  intro paths
  induction paths with
  | nil => rfl
  | cons q rest ih => simp [processFile_path, ih]

/-- For each path `p`, the per-file results carry exactly as many entries
for `p` as the input sequence does. -/
lemma results_count (env : PipelineEnv) :
    ∀ (paths : List String) (p : String),
      ((paths.map (processFile env)).filter fun r => r.path = p).length
        = paths.count p := by
  intro paths p
  induction paths with
  | nil => rfl
  | cons q rest ih =>
    by_cases hq : q = p
    · subst hq
      simp [List.filter_cons, processFile_path, List.count_cons, ih]
    · simp [List.filter_cons, processFile_path, hq, List.count_cons, ih]

/-- Without cancellation, the batch loop processes each path in order and
emits its start/done event pair before moving to the next file. -/
lemma runBatchAux_noCancel (env : PipelineEnv) :
    ∀ (paths : List String) (k : Nat),
      runBatchAux env noCancel k paths
        = ((paths.map (fileEvents env)).flatten, paths.map (processFile env)) := by
  intro paths
  induction paths with
  | nil => intro k; rfl
  | cons p rest ih =>
    intro k
    simp [runBatchAux, noCancel, ih (k + 1), fileEvents]

/-- With cancellation first observed at boundary `k₀`, the batch loop at
absolute index `k` processes the first `k₀ - k` remaining files and marks
all others `cancelled` without starting them. -/
lemma runBatchAux_cancelAt (env : PipelineEnv) (k₀ : Nat) :
    ∀ (paths : List String) (k : Nat),
      runBatchAux env (cancelAt k₀) k paths
        = (((paths.take (k₀ - k)).map (fileEvents env)).flatten,
           (paths.take (k₀ - k)).map (processFile env)
             ++ (paths.drop (k₀ - k)).map
                 fun q => { path := q, outcome := Outcome.cancelled }) := by
  intro paths
  induction paths with
  | nil => intro k; simp [runBatchAux]
  | cons p rest ih =>
    intro k
    by_cases hk : k₀ ≤ k
    · have h0 : k₀ - k = 0 := by omega
      simp [runBatchAux, cancelAt, hk, h0]
    · have hs : k₀ - k = (k₀ - (k + 1)) + 1 := by omega
      simp [runBatchAux, cancelAt, hk, hs, ih (k + 1), fileEvents]

/-- The never-cancelled signal is never observed. -/
lemma range_any_noCancel (n : Nat) : (List.range n).any noCancel = false := by
  simp [noCancel]

/-- `runBatch` without cancellation: per-file event pairs in input order
followed by the terminal summary event. -/
lemma runBatch_noCancel (env : PipelineEnv) (paths : List String) :
    runBatch env noCancel paths
      = ((paths.map (fileEvents env)).flatten
           ++ [Event.batchDone (mkSummary (paths.map (processFile env)))],
         mkSummary (paths.map (processFile env))) := by
  unfold runBatch
  rw [runBatchAux_noCancel, range_any_noCancel]
  simp

/-- `runBatch` with cancellation observed at boundary `k₀ < n`: the first
`k₀` files are processed, the rest are cancelled, and the terminal event is
the Cancelled event carrying the summary. -/
lemma runBatch_cancelAt (env : PipelineEnv) (paths : List String) (k₀ : Nat)
    (hk : k₀ < paths.length) :
    runBatch env (cancelAt k₀) paths
      = (((paths.take k₀).map (fileEvents env)).flatten
           ++ [Event.cancelledEvt (mkSummary
               ((paths.take k₀).map (processFile env)
                 ++ (paths.drop k₀).map
                     fun q => { path := q, outcome := Outcome.cancelled }))],
         mkSummary
           ((paths.take k₀).map (processFile env)
             ++ (paths.drop k₀).map
                 fun q => { path := q, outcome := Outcome.cancelled })) := by
  have hobs : (List.range paths.length).any (cancelAt k₀) = true := by
    simp only [List.any_eq_true, List.mem_range]
    exact ⟨k₀, hk, by simp [cancelAt]⟩
  unfold runBatch
  rw [runBatchAux_cancelAt, hobs]
  simp

/-- Fuelled base-1024 logarithm bound: with enough fuel,
`n < 1024 ^ (m + 1)` gives `log1024Aux fuel n ≤ m`. -/
lemma log1024Aux_le :
    ∀ (fuel n m : Nat), n ≤ fuel → n < 1024 ^ (m + 1) →
      log1024Aux fuel n ≤ m := by
  intro fuel
  induction fuel with
  | zero =>
    intro n m _ _
    simp [log1024Aux]
  | succ fuel ih =>
    intro n m hn hlt
    unfold log1024Aux
    split
    · exact Nat.zero_le m
    · rename_i hge
      cases m with
      | zero =>
        exfalso
        rw [pow_one] at hlt
        omega
      | succ m' =>
        have h1 : n / 1024 ≤ fuel := by omega
        have h2 : n / 1024 < 1024 ^ (m' + 1) := by
          rw [Nat.div_lt_iff_lt_mul (by norm_num)]
          calc n < 1024 ^ (m' + 1 + 1) := hlt
            _ = 1024 ^ (m' + 1) * 1024 := by ring
        have := ih (n / 1024) m' h1 h2
        omega

/-- `log1024 n ≤ m` whenever `n < 1024 ^ (m + 1)`. -/
lemma log1024_le (n m : Nat) (h : n < 1024 ^ (m + 1)) : log1024 n ≤ m :=
  log1024Aux_le n n m (Nat.le_refl n) h

/-- A concrete pipeline environment used to exercise the batch-runner
theorems: `notes.xyz` has no matching extractor, `broken.pdf` fails
extraction (truncated file), everything else converts successfully. -/
def sampleEnv : PipelineEnv :=
  { detect := fun p =>
      if p = "notes.xyz" then Except.error ConvError.unsupportedFormat
      else Except.ok Format.pdf,
    extract := fun _ p =>
      if p = "broken.pdf" then
        Except.error (ConvError.extractionError "truncated")
      else
        Except.ok
          { rawText := "sample text", pageCount := 1,
            blocks := [{ kind := "paragraph", text := "sample text",
                         page := some 0 }],
            warnings := [] },
    normalize := fun c =>
      { title := none, language := "en", blocks := c.blocks,
        warnings := c.warnings },
    write := fun d => Except.ok (d.sourcePath ++ ".json"),
    now := 42 }

/-! ## Claim theorems -/

/-- C1: For every invocation of `convert` (`runBatch`) over a non-empty
ordered sequence of input paths, the batch yields exactly one
`ConversionResult` per input path — in input order, never zero, never more
than one, none of them `cancelled` — and the terminal `batchDone` summary
event covers every input with its individual outcome. -/
theorem convert_one_result_per_path (env : PipelineEnv) (paths : List String)
    (hne : paths ≠ []) :
    (runBatch env noCancel paths).2.results.map ConversionResult.path
        = paths ∧
    (runBatch env noCancel paths).2.results.length = paths.length ∧
    (runBatch env noCancel paths).2.total = paths.length ∧
    (∀ p : String,
      ((runBatch env noCancel paths).2.results.filter
          fun r => r.path = p).length = paths.count p) ∧
    (∀ r ∈ (runBatch env noCancel paths).2.results,
      r.outcome ≠ Outcome.cancelled) ∧
    (runBatch env noCancel paths).1
      = (paths.map (fileEvents env)).flatten
          ++ [Event.batchDone (runBatch env noCancel paths).2] := by
  rw [runBatch_noCancel]
  refine ⟨results_paths env paths, by simp [mkSummary], by simp [mkSummary],
    fun p => results_count env paths p, ?_, rfl⟩
  intro r hr
  simp only [mkSummary, List.mem_map] at hr
  obtain ⟨q, _, rfl⟩ := hr
  exact processFile_not_cancelled env q

/-- C1 witness: a concrete two-file batch (one success, one extraction
failure) yields exactly the two results, under the input paths in input
order. -/
theorem convert_one_result_per_path_witness :
    (runBatch sampleEnv noCancel ["good.pdf", "broken.pdf"]).2.results.map
        ConversionResult.path = ["good.pdf", "broken.pdf"] :=
  (convert_one_result_per_path sampleEnv ["good.pdf", "broken.pdf"]
    (by decide)).1

/-- C2: a failure at any stage (detect, extract, or write) of one file is
caught and mapped to a `ConversionResult` failure, and every file's result
depends only on that file — the batch processes every file and the summary
lists one result per file even when some file fails. -/
theorem per_file_failure_isolated (env : PipelineEnv) (paths : List String)
    (i : Nat) (hi : i < paths.length)
    (hfail : (processFile env paths[i]).outcome.isFailure = true) :
    (runBatch env noCancel paths).2.results = paths.map (processFile env) ∧
    (∀ j (hj : j < paths.length),
      (runBatch env noCancel paths).2.results[j]?
        = some (processFile env paths[j])) ∧
    (∀ p e, env.detect p = Except.error e →
      processFile env p = { path := p, outcome := Outcome.failure e }) ∧
    (∀ p fmt e, env.detect p = Except.ok fmt →
      env.extract fmt p = Except.error e →
      processFile env p = { path := p, outcome := Outcome.failure e }) ∧
    (∀ p fmt content e, env.detect p = Except.ok fmt →
      env.extract fmt p = Except.ok content →
      env.write (assemble (env.normalize content) p fmt env.now)
        = Except.error e →
      processFile env p = { path := p, outcome := Outcome.failure e }) := by
  rw [runBatch_noCancel]
  refine ⟨rfl, ?_, ?_, ?_, ?_⟩
  · intro j hj
    simp [mkSummary, List.getElem?_map, List.getElem?_eq_getElem, hj]
  · intro p e hdet
    simp [processFile, hdet]
  · intro p fmt e hdet hext
    simp [processFile, hdet, hext]
  · intro p fmt content e hdet hext hwr
    simp [processFile, hdet, hext, hwr]

/-- C2 witness: in a concrete three-file batch whose middle file fails
extraction, the summary still lists one result per file, each computed
from its own file alone. -/
theorem per_file_failure_isolated_witness :
    (runBatch sampleEnv noCancel
        ["good.pdf", "broken.pdf", "tail.pdf"]).2.results
      = ["good.pdf", "broken.pdf", "tail.pdf"].map (processFile sampleEnv) :=
  (per_file_failure_isolated sampleEnv ["good.pdf", "broken.pdf", "tail.pdf"]
    1 (by decide) (by decide)).1

/-- C3: when cancellation is observed at the boundary before file index
`k₀` (with files remaining), no file at index `≥ k₀` is started — the event
stream contains start/done events only for the first `k₀` files — every
not-yet-started file gets final state `cancelled` (not a failure), every
already-processed file keeps its success/failure outcome, and the summary
still covers all `n` files. -/
theorem cancellation_at_boundary (env : PipelineEnv) (paths : List String)
    (k₀ : Nat) (hk : k₀ < paths.length) :
    (runBatch env (cancelAt k₀) paths).2.results
        = (paths.take k₀).map (processFile env)
          ++ (paths.drop k₀).map
              (fun q => { path := q, outcome := Outcome.cancelled }) ∧
    (runBatch env (cancelAt k₀) paths).2.total = paths.length ∧
    (runBatch env (cancelAt k₀) paths).2.results.map ConversionResult.path
        = paths ∧
    (runBatch env (cancelAt k₀) paths).1
        = ((paths.take k₀).map (fileEvents env)).flatten
            ++ [Event.cancelledEvt (runBatch env (cancelAt k₀) paths).2] := by
  rw [runBatch_cancelAt env paths k₀ hk]
  refine ⟨rfl, ?_, ?_, rfl⟩
  · simp only [mkSummary, List.length_append, List.length_map,
      List.length_take, List.length_drop]
    omega
  · have h2 : ∀ l : List String,
        (l.map (fun q =>
          ({ path := q, outcome := Outcome.cancelled } : ConversionResult))).map
            ConversionResult.path = l := by
      intro l
      induction l with
      | nil => rfl
      | cons a t ih => simp [ih]
    show ((paths.take k₀).map (processFile env)
        ++ (paths.drop k₀).map fun q =>
            ({ path := q, outcome := Outcome.cancelled } : ConversionResult)).map
          ConversionResult.path = paths
    rw [List.map_append, results_paths, h2, List.take_append_drop]

/-- C3 witness: cancellation observed after two of five files — files 1–2
carry processed outcomes, files 3–5 are `cancelled`, and the summary still
reflects all five. -/
theorem cancellation_at_boundary_witness :
    (runBatch sampleEnv (cancelAt 2)
        ["f1.pdf", "f2.pdf", "f3.pdf", "f4.pdf", "f5.pdf"]).2.total = 5 :=
  (cancellation_at_boundary sampleEnv
    ["f1.pdf", "f2.pdf", "f3.pdf", "f4.pdf", "f5.pdf"] 2 (by decide)).2.1

/-- C4 counterexample: on an empty input sequence the HTTP-based
`convert-files` handler does not fail with a fatal error — it returns the
ordinary reply `{ results: [] }` to its caller. -/
theorem empty_input_not_fatal_in_handler :
    convertFilesHandler [] = Except.ok (some { results := [] }) ∧
    isErrorReply (convertFilesHandler []) = false :=
  ⟨rfl, rfl⟩

/-- C4 (amended): when `convert` is invoked with an empty sequence of input
paths, no per-file processing is started in either entry point; the
spawn-based `convertFiles` surfaces a fatal `NO_FILES` conversion-error
immediately, while the HTTP-based `convert-files` handler returns an empty
result reply without surfacing an error. -/
theorem empty_input_admission (scriptExists : Bool) :
    convertFilesStart [] scriptExists
      = ([MainEvent.conversionError "NO_FILES"
            "No files selected for conversion"], false) ∧
    convertFilesHandler [] = Except.ok (some { results := [] }) ∧
    isErrorReply (convertFilesHandler []) = false :=
  ⟨rfl, rfl, rfl⟩

/-- C5: the renderer admits at most one conversion job — a `startConversion`
request while `isConverting` is set leaves the state unchanged and never
dispatches a convert call, and a dispatch can only happen from an idle
state (and marks it converting). -/
theorem single_active_job (st : RendererState) :
    (st.isConverting = true →
      (startConversion st).1 = st ∧
      ∀ ps, (startConversion st).2 ≠ StartAction.dispatched ps) ∧
    (∀ ps, (startConversion st).2 = StartAction.dispatched ps →
      st.isConverting = false ∧ (startConversion st).1.isConverting = true) := by
  constructor
  · intro hconv
    by_cases hemp : st.files.isEmpty
    · simp [startConversion, hemp]
    · simp [startConversion, hemp, hconv]
  · intro ps hps
    by_cases hemp : st.files.isEmpty
    · simp [startConversion, hemp] at hps
    · by_cases hconv : st.isConverting
      · simp [startConversion, hemp, hconv] at hps
      · simp only [Bool.not_eq_true] at hconv
        refine ⟨hconv, ?_⟩
        simp [startConversion, hemp, hconv]

/-- A concrete renderer state with one queued file and a conversion in
flight. -/
def busyState : RendererState :=
  { files := [{ path := "a.pdf", name := "a.pdf", status := "processing",
                statusText := "Processing" }],
    convertedFiles := [], isConverting := true }

/-- The same state with no conversion in flight. -/
def idleState : RendererState :=
  { files := [{ path := "a.pdf", name := "a.pdf", status := "pending",
                statusText := "Pending" }],
    convertedFiles := [], isConverting := false }

/-- C5 witness: a start request against a busy concrete state is rejected
with the state unchanged, and a dispatch from the idle concrete state
implies it was idle. -/
theorem single_active_job_witness :
    (startConversion busyState).1 = busyState ∧
    idleState.isConverting = false :=
  ⟨((single_active_job busyState).1 rfl).1,
   ((single_active_job idleState).2 ["a.pdf"] (by decide)).1⟩

/-- C6: without cancellation, the event stream is exactly the per-file
start/completion pairs in the input order of the job, each file's start
event immediately preceding its completion event and each completion event
emitted before the next file's start — never batched at the end — followed
by the single terminal summary event. -/
theorem events_realtime_in_order (env : PipelineEnv) (paths : List String) :
    (runBatch env noCancel paths).1
      = (paths.map (fileEvents env)).flatten
          ++ [Event.batchDone (runBatch env noCancel paths).2] ∧
    ∀ p, fileEvents env p
      = [Event.started p, Event.fileDone p (processFile env p).outcome] := by
  rw [runBatch_noCancel]
  exact ⟨rfl, fun _ => rfl⟩

/-- C8: the Document Assembler is deterministic — for identical
`NormalizedDocument`, source path and detected format, the content JSON is
byte-identical across runs, the generation timestamp living only in the
non-semantic metadata component excluded from the content serialization;
hence converting the same file twice yields byte-identical JSON content. -/
theorem assembler_deterministic (env : PipelineEnv) (nd : NormalizedDocument)
    (src : String) (fmt : Format) (p : String) (t₁ t₂ : Nat) :
    serializeContent (assemble nd src fmt t₁)
      = serializeContent (assemble nd src fmt t₂) ∧
    (assemble nd src fmt t₁).generatedAt = t₁ ∧
    (convertFileJSON env p t₁).map Prod.fst
      = (convertFileJSON env p t₂).map Prod.fst := by
  refine ⟨rfl, rfl, ?_⟩
  unfold convertFileJSON
  split
  · rfl
  · split
    · rfl
    · rfl

/-- C7 counterexample: the `convert-files` handler's backend request does
carry a design-imposed timeout (10,000 ms), contradicting the claim that
the design imposes no timeout of its own on the conversion call. -/
theorem convert_request_has_timeout :
    (convertRequest ["doc.pdf"]).timeoutMs = some 10000 ∧
    (convertRequest ["doc.pdf"]).timeoutMs ≠ none := by
  decide

/-- C7 (amended): the `convert-files` handler posts the file list to the
backend `/convert` endpoint with its own 10,000 ms timeout option, so a
conversion exceeding it surfaces as a transport timeout error rather than
an `ExtractionError`. -/
theorem convert_request_timeout_config (files : List String) :
    convertRequest files
      = { method := "POST", urlPath := "/convert", bodyFiles := files,
          timeoutMs := some 10000 } := rfl

/-- C9: for every channel outside the preload whitelists, the bridge never
forwards: `api.send` returns `false` without sending, `api.invoke` rejects
without invoking, `api.on` registers nothing and returns a no-op
unsubscribe; whitelisted channels are forwarded. -/
theorem bridge_channel_whitelist (ch : String) :
    (ch ∉ SEND_CHANNELS →
      apiSend ch = { forwarded := none, returned := false }) ∧
    (ch ∈ SEND_CHANNELS →
      apiSend ch = { forwarded := some ch, returned := true }) ∧
    (ch ∉ INVOKE_CHANNELS →
      apiInvoke ch = Except.error ("Invalid channel: " ++ ch)) ∧
    (ch ∈ INVOKE_CHANNELS → apiInvoke ch = Except.ok ch) ∧
    (ch ∉ RECEIVE_CHANNELS →
      apiOn ch = { registered := none, unsubRemoves := false }) ∧
    (ch ∈ RECEIVE_CHANNELS →
      apiOn ch = { registered := some ch, unsubRemoves := true }) := by
  refine ⟨fun h => ?_, fun h => ?_, fun h => ?_, fun h => ?_,
      fun h => ?_, fun h => ?_⟩ <;>
    simp [apiSend, apiInvoke, apiOn, h]

/-- C9 witness: a non-whitelisted channel is blocked on all three bridge
methods, and representative whitelisted channels are forwarded. -/
theorem bridge_channel_whitelist_witness :
    apiSend "evil-channel" = { forwarded := none, returned := false } ∧
    apiInvoke "evil-channel"
      = Except.error ("Invalid channel: " ++ "evil-channel") ∧
    apiOn "evil-channel" = { registered := none, unsubRemoves := false } ∧
    apiSend "convert-files"
      = { forwarded := some "convert-files", returned := true } ∧
    apiInvoke "open-file-dialog" = Except.ok "open-file-dialog" ∧
    apiOn "conversion-complete"
      = { registered := some "conversion-complete", unsubRemoves := true } :=
  ⟨(bridge_channel_whitelist "evil-channel").1 (by decide),
   (bridge_channel_whitelist "evil-channel").2.2.1 (by decide),
   (bridge_channel_whitelist "evil-channel").2.2.2.2.1 (by decide),
   (bridge_channel_whitelist "convert-files").2.1 (by decide),
   (bridge_channel_whitelist "open-file-dialog").2.2.2.1 (by decide),
   (bridge_channel_whitelist "conversion-complete").2.2.2.2.2 (by decide)⟩

/-- C10: `formatFileSize 0 = "0 B"`, and for every `1 ≤ bytes < 1024^4`
the index into `sizes` is in bounds, the suffix is one of
`B`/`KB`/`MB`/`GB`, and the output is a decimal number followed by a space
and that suffix. -/
theorem formatFileSize_shape (b : Nat) (h1 : 1 ≤ b) (h2 : b < 1024 ^ 4) :
    formatFileSize 0 = "0 B" ∧
    log1024 b < sizes.length ∧
    sizes.getD (log1024 b) "undefined" ∈ sizes ∧
    formatFileSize b
      = sizeNumString b ++ " " ++ sizes.getD (log1024 b) "undefined" ∧
    ∃ q r : Nat, r < 10 ∧
      sizeNumString b
        = (if r = 0 then toString q else toString q ++ "." ++ toString r) := by
  have hlt : log1024 b < 4 := Nat.lt_succ_of_le (log1024_le b 3 h2)
  refine ⟨rfl, by simpa [sizes] using hlt, ?_, ?_, ?_⟩
  · interval_cases h : log1024 b <;> decide
  · unfold formatFileSize
    rw [if_neg (by omega)]
  · refine ⟨(20 * b + 1024 ^ log1024 b) / (2 * (1024 ^ log1024 b)) / 10,
      (20 * b + 1024 ^ log1024 b) / (2 * (1024 ^ log1024 b)) % 10,
      Nat.mod_lt _ (by norm_num), ?_⟩
    rfl

/-- C10 witness: the zero case and a concrete in-range input. -/
theorem formatFileSize_shape_witness :
    formatFileSize 0 = "0 B" ∧
    formatFileSize 1500
      = sizeNumString 1500 ++ " " ++ sizes.getD (log1024 1500) "undefined" :=
  ⟨(formatFileSize_shape 1500 (by decide) (by decide)).1,
   (formatFileSize_shape 1500 (by decide) (by decide)).2.2.2.1⟩

end DocuMancer
